import Mathlib

/-!
Verification of the Black-Scholes vanilla-option pricer in `models.py`.

The embedding follows the source: a `VanillaOption` record holds the raw
contract fields; `time_to_expiry` and `risk_free_cont` are derived on demand;
the two pricing variants `SpotPrice` and `ForwardPrice` are families of pure
functions of the contract.  Date parsing (`pandas.to_datetime` with format
`"%d.%m.%Y"`) raises on a malformed string, so the derived quantities live in
`Except String`; the floating-point formulas are read over exact real
arithmetic, with `statistics.NormalDist().cdf` modelled as the standard normal
cumulative distribution function written as a Lebesgue integral.
-/

open MeasureTheory

namespace ValueAtRisk

/-- Gregorian leap-year test, part of the calendar primitive behind
`pandas.to_datetime`. -/
def isLeap (y : ℕ) : Bool :=
  (y % 4 == 0 && y % 100 != 0) || (y % 400 == 0)

/-- Number of days in month `m` of year `y`. -/
def daysInMonth (y m : ℕ) : ℕ :=
  if m = 2 then (if isLeap y then 29 else 28)
  else if m = 4 ∨ m = 6 ∨ m = 9 ∨ m = 11 then 30
  else 31

/-- Days of year `y` that lie strictly before the first day of month `m`. -/
def daysBeforeMonth (y m : ℕ) : ℕ :=
  ((List.range (m - 1)).map (fun i => daysInMonth y (i + 1))).sum

/-- Proleptic-Gregorian day number of the date `d.m.y` (days counted from an
arbitrary fixed epoch); differences of day numbers are calendar-day
differences, which is what `(expiry - trade).days` computes. -/
def dayNumber (y m d : ℕ) : ℕ :=
  (y - 1) * 365 + (y - 1) / 4 - (y - 1) / 100 + (y - 1) / 400 + daysBeforeMonth y m + d

/-- Split a character list at every dot. -/
def splitDots : List Char → List (List Char)
  | [] => [[]]
  | c :: rest =>
    if c = '.' then [] :: splitDots rest
    else
      match splitDots rest with
      | [] => [[c]]
      | g :: gs => (c :: g) :: gs

/-- Numeric value of a decimal digit character. -/
def digitVal (c : Char) : ℕ := c.toNat - 48

/-- Value of a list of decimal digit characters. -/
def natOfDigits (cs : List Char) : ℕ :=
  cs.foldl (fun acc c => 10 * acc + digitVal c) 0

/-- Date primitive used by the source (`pandas.to_datetime` with format
`"%d.%m.%Y"`): parse a `"DD.MM.YYYY"` string into `(day, month, year)`,
validating the calendar; `none` models the raised `DateFormatError`. -/
def parseDMY (s : String) : Option (ℕ × ℕ × ℕ) :=
  match splitDots s.data with
  | [ds, ms, ys] =>
    if (ds.all Char.isDigit && ms.all Char.isDigit && ys.all Char.isDigit
        && (ds.length == 1 || ds.length == 2) && (ms.length == 1 || ms.length == 2)
        && ys.length == 4) then
      let d := natOfDigits ds
      let m := natOfDigits ms
      let y := natOfDigits ys
      if 1 ≤ m ∧ m ≤ 12 ∧ 1 ≤ d ∧ d ≤ daysInMonth y m then some (d, m, y) else none
    else none
  | _ => none

/-- The `VanillaOption` dataclass of `models.py`: seven raw input fields,
never mutated after construction. -/
structure VanillaOption where
  trade_date : String
  expiry_date : String
  spot_price : ℝ
  strike_price : ℝ
  risk_free_int : ℝ
  dividends : ℝ
  volatility : ℝ

/-- Whole-day difference `(expiry - trade).days`; `none` when either date
string fails to parse. -/
def VanillaOption.days_to_expiry (o : VanillaOption) : Option ℤ :=
  match parseDMY o.expiry_date, parseDMY o.trade_date with
  | some (de, me, ye), some (dt, mt, yt) =>
      some ((dayNumber ye me de : ℤ) - (dayNumber yt mt dt : ℤ))
  | _, _ => none

/-- The `time_to_expiry` property: day difference divided by 365, recomputed
on each access; a malformed date raises, modelled as `Except.error`. -/
noncomputable def VanillaOption.time_to_expiry (o : VanillaOption) : Except String ℝ :=
  match o.days_to_expiry with
  | some n => .ok ((n : ℝ) / 365)
  | none => .error "DateFormatError"

/-- The `risk_free_cont` property: `np.log(1 + risk_free_int)`. -/
noncomputable def VanillaOption.risk_free_cont (o : VanillaOption) : ℝ :=
  Real.log (1 + o.risk_free_int)

/-- Density of the standard normal distribution, the function integrated by
`statistics.NormalDist().cdf`. -/
noncomputable def normPdf (t : ℝ) : ℝ :=
  Real.exp (-t ^ 2 / 2) / Real.sqrt (2 * Real.pi)

/-- Standard normal cumulative distribution function,
`statistics.NormalDist().cdf` of the source. -/
noncomputable def normCdf (x : ℝ) : ℝ :=
  ∫ t in Set.Iic x, normPdf t

namespace SpotPrice

/-- Property `SpotPrice.price`: the spot price itself. -/
def price (o : VanillaOption) : ℝ := o.spot_price

/-- Property `SpotPrice.d1` as a function of the contract and the value `T` of
`time_to_expiry`. -/
noncomputable def d1R (o : VanillaOption) (T : ℝ) : ℝ :=
  (Real.log (price o / o.strike_price) + T * (o.risk_free_cont + o.volatility ^ 2 / 2))
    / (o.volatility * Real.sqrt T)

/-- Property `SpotPrice.d2` as a function of the contract and `T`. -/
noncomputable def d2R (o : VanillaOption) (T : ℝ) : ℝ :=
  d1R o T - o.volatility * Real.sqrt T

/-- Property `SpotPrice.call` as a function of the contract and `T`. -/
noncomputable def callR (o : VanillaOption) (T : ℝ) : ℝ :=
  normCdf (d1R o T) * price o
    - normCdf (d2R o T) * o.strike_price * Real.exp (-o.risk_free_cont * T)

/-- The `d1` property: evaluates `time_to_expiry` (which may raise). -/
noncomputable def d1 (o : VanillaOption) : Except String ℝ :=
  o.time_to_expiry.map (d1R o)

/-- The `d2` property. -/
noncomputable def d2 (o : VanillaOption) : Except String ℝ :=
  o.time_to_expiry.map (d2R o)

/-- The `call` property. -/
noncomputable def call (o : VanillaOption) : Except String ℝ :=
  o.time_to_expiry.map (callR o)

/-- The `put` property of the Spot variant: `return` with no value — it
returns Python `None` unconditionally, raising nothing and reading no field.
The observation type distinguishes a raised error (`Except.error`), a numeric
result (`Except.ok (some x)`) and the empty result (`Except.ok none`). -/
def put (_o : VanillaOption) : Except String (Option ℝ) := .ok none

/-- The `put_from_parity` property of the Spot variant: bare `return`,
yielding Python `None` unconditionally. -/
def put_from_parity (_o : VanillaOption) : Except String (Option ℝ) := .ok none

end SpotPrice

namespace ForwardPrice

/-- Property `ForwardPrice.price` (no dividends) as a function of the contract and the
value `T` of `time_to_expiry`. -/
noncomputable def priceR (o : VanillaOption) (T : ℝ) : ℝ :=
  o.spot_price * Real.exp (o.risk_free_cont * T)

/-- Property `ForwardPrice.d1` as a function of the contract and `T`. -/
noncomputable def d1R (o : VanillaOption) (T : ℝ) : ℝ :=
  (Real.log (priceR o T / o.strike_price) + T * o.volatility ^ 2 / 2)
    / (o.volatility * Real.sqrt T)

/-- Property `ForwardPrice.d2` as a function of the contract and `T`. -/
noncomputable def d2R (o : VanillaOption) (T : ℝ) : ℝ :=
  d1R o T - o.volatility * Real.sqrt T

/-- Property `ForwardPrice.call` as a function of the contract and `T`. -/
noncomputable def callR (o : VanillaOption) (T : ℝ) : ℝ :=
  (normCdf (d1R o T) * priceR o T - normCdf (d2R o T) * o.strike_price)
    * Real.exp (-o.risk_free_cont * T)

/-- Property `ForwardPrice.put` as a function of the contract and `T`. -/
noncomputable def putR (o : VanillaOption) (T : ℝ) : ℝ :=
  (normCdf (-d2R o T) * o.strike_price - normCdf (-d1R o T) * priceR o T)
    * Real.exp (-o.risk_free_cont * T)

/-- Property `ForwardPrice.put_from_parity` as a function of the contract and `T`. -/
noncomputable def put_from_parityR (o : VanillaOption) (T : ℝ) : ℝ :=
  callR o T - o.spot_price + o.strike_price * Real.exp (-o.risk_free_cont * T)

/-- The `price` property: evaluates `time_to_expiry` (which may raise). -/
noncomputable def price (o : VanillaOption) : Except String ℝ :=
  o.time_to_expiry.map (priceR o)

/-- The `d1` property. -/
noncomputable def d1 (o : VanillaOption) : Except String ℝ :=
  o.time_to_expiry.map (d1R o)

/-- The `d2` property. -/
noncomputable def d2 (o : VanillaOption) : Except String ℝ :=
  o.time_to_expiry.map (d2R o)

/-- The `call` property. -/
noncomputable def call (o : VanillaOption) : Except String ℝ :=
  o.time_to_expiry.map (callR o)

/-- The `put` property. -/
noncomputable def put (o : VanillaOption) : Except String ℝ :=
  o.time_to_expiry.map (putR o)

/-- The `put_from_parity` property. -/
noncomputable def put_from_parity (o : VanillaOption) : Except String ℝ :=
  o.time_to_expiry.map (put_from_parityR o)

end ForwardPrice

/-- The in-the-money scenario of `test.py`. -/
noncomputable def itmOption : VanillaOption :=
  ⟨"23.11.2022", "10.05.2023", 110, 100, 0.005, 0.0, 0.3⟩

/-- The at-the-money scenario of `test.py`. -/
noncomputable def atmOption : VanillaOption :=
  ⟨"23.11.2022", "10.05.2023", 100, 100, 0.005, 0.0, 0.3⟩

/-- The out-of-the-money scenario of `test.py`. -/
noncomputable def otmOption : VanillaOption :=
  ⟨"23.11.2022", "10.05.2023", 100, 110, 0.005, 0.0, 0.3⟩

/-- A contract that is slightly spot-ITM but forward-OTM at the test rate. -/
noncomputable def nearAtmOption : VanillaOption :=
  ⟨"23.11.2022", "10.05.2023", 99.9, 100, 0.005, 0.0, 0.3⟩

/-- A contract with a deeply negative simple rate. -/
noncomputable def negRateOption : VanillaOption :=
  ⟨"23.11.2022", "10.05.2023", 101, 100, -0.5, 0.0, 0.3⟩

/-! ### Facts about the standard normal distribution -/

theorem normPdf_pos (t : ℝ) : 0 < normPdf t :=
  div_pos (Real.exp_pos _) (Real.sqrt_pos.mpr (by positivity))

theorem normPdf_even (t : ℝ) : normPdf (-t) = normPdf t := by
  unfold normPdf
  rw [neg_sq]

theorem normPdf_eq (t : ℝ) :
    normPdf t = Real.exp (-(1 / 2) * t ^ 2) / Real.sqrt (2 * Real.pi) := by
  rw [normPdf, show -t ^ 2 / 2 = -(1 / 2) * t ^ 2 by ring]

theorem integrable_normPdf : Integrable normPdf := by
  have h : Integrable (fun t : ℝ => Real.exp (-(1 / 2) * t ^ 2)) :=
    integrable_exp_neg_mul_sq (by norm_num)
  have := h.div_const (Real.sqrt (2 * Real.pi))
  refine this.congr (Filter.Eventually.of_forall fun t => ?_)
  rw [normPdf_eq]

theorem integral_normPdf : ∫ t, normPdf t = 1 := by
  have h1 : ∫ t, normPdf t = (∫ t : ℝ, Real.exp (-(1 / 2) * t ^ 2)) / Real.sqrt (2 * Real.pi) := by
    rw [← integral_div]
    exact integral_congr_ae (Filter.Eventually.of_forall fun t => normPdf_eq t)
  rw [h1, integral_gaussian, show Real.pi / (1 / 2) = 2 * Real.pi by ring]
  exact div_self (Real.sqrt_ne_zero'.mpr (by positivity))

theorem normCdf_neg_eq (x : ℝ) : normCdf (-x) = ∫ t in Set.Ioi x, normPdf t := by
  have h := integral_comp_neg_Iic (-x) normPdf
  rw [neg_neg] at h
  rw [normCdf, ← h]
  exact setIntegral_congr_fun measurableSet_Iic fun t _ => (normPdf_even t).symm

theorem normCdf_add_normCdf_neg (x : ℝ) : normCdf x + normCdf (-x) = 1 := by
  rw [normCdf, normCdf_neg_eq,
    intervalIntegral.integral_Iic_add_Ioi integrable_normPdf.integrableOn
      integrable_normPdf.integrableOn,
    integral_normPdf]

/-- Translation invariance of the Lebesgue integral over a half line. -/
theorem setIntegral_Iic_add_right (f : ℝ → ℝ) (a s : ℝ) :
    ∫ u in Set.Iic a, f (u + s) = ∫ v in Set.Iic (a + s), f v := by
  have h₁ : MeasurePreserving (fun u : ℝ => u + s) volume volume :=
    measurePreserving_add_right volume s
  have h₂ : MeasurableEmbedding (fun u : ℝ => u + s) :=
    (Homeomorph.addRight s).isClosedEmbedding.measurableEmbedding
  have h₃ : Set.preimage (fun u : ℝ => u + s) (Set.Iic (a + s)) = Set.Iic a := by
    ext u
    simp
  have h := h₁.setIntegral_preimage_emb h₂ f (Set.Iic (a + s))
  rw [h₃] at h
  exact h

theorem integrable_normPdf_add (s : ℝ) : Integrable (fun u : ℝ => normPdf (u + s)) := by
  have h₁ : MeasurePreserving (fun u : ℝ => u + s) volume volume :=
    measurePreserving_add_right volume s
  have h₂ : MeasurableEmbedding (fun u : ℝ => u + s) :=
    (Homeomorph.addRight s).isClosedEmbedding.measurableEmbedding
  exact (h₁.integrable_comp_emb h₂).mpr integrable_normPdf

/-- Below the threshold `log (F / K) / s - s / 2` the shifted density weighted
by `F` dominates the density weighted by `K`. -/
theorem normPdf_shift_ge (F K s u : ℝ) (hF : 0 < F) (hK : 0 < K) (hs : 0 < s)
    (hu : u ≤ Real.log (F / K) / s - s / 2) :
    K * normPdf u ≤ F * normPdf (u + s) := by
  have hlog : Real.log (F / K) = Real.log F - Real.log K := Real.log_div hF.ne' hK.ne'
  have hus : u * s ≤ Real.log F - Real.log K - s ^ 2 / 2 := by
    have h1 := mul_le_mul_of_nonneg_right hu hs.le
    rw [sub_mul, div_mul_cancel₀ _ hs.ne'] at h1
    nlinarith [h1]
  have hc : 0 < Real.sqrt (2 * Real.pi) := Real.sqrt_pos.mpr (by positivity)
  have hnum : K * Real.exp (-u ^ 2 / 2) ≤ F * Real.exp (-(u + s) ^ 2 / 2) := by
    rw [← Real.exp_log hK, ← Real.exp_log hF, ← Real.exp_add, ← Real.exp_add]
    apply Real.exp_le_exp.mpr
    nlinarith [hus]
  unfold normPdf
  rw [← mul_div_assoc, ← mul_div_assoc, div_eq_mul_inv, div_eq_mul_inv]
  exact mul_le_mul_of_nonneg_right hnum (inv_nonneg.mpr hc.le)

/-- Strict version of `normPdf_shift_ge` below the threshold. -/
theorem normPdf_shift_gt (F K s u : ℝ) (hF : 0 < F) (hK : 0 < K) (hs : 0 < s)
    (hu : u < Real.log (F / K) / s - s / 2) :
    K * normPdf u < F * normPdf (u + s) := by
  have hlog : Real.log (F / K) = Real.log F - Real.log K := Real.log_div hF.ne' hK.ne'
  have hus : u * s < Real.log F - Real.log K - s ^ 2 / 2 := by
    have h1 := mul_lt_mul_of_pos_right hu hs
    rw [sub_mul, div_mul_cancel₀ _ hs.ne'] at h1
    nlinarith [h1]
  have hc : 0 < Real.sqrt (2 * Real.pi) := Real.sqrt_pos.mpr (by positivity)
  have hnum : K * Real.exp (-u ^ 2 / 2) < F * Real.exp (-(u + s) ^ 2 / 2) := by
    rw [← Real.exp_log hK, ← Real.exp_log hF, ← Real.exp_add, ← Real.exp_add]
    apply Real.exp_lt_exp.mpr
    nlinarith [hus]
  unfold normPdf
  rw [← mul_div_assoc, ← mul_div_assoc, div_eq_mul_inv, div_eq_mul_inv]
  exact mul_lt_mul_of_pos_right hnum (inv_pos.mpr hc)

/-- The Black-Scholes core `F·Φ(d1) - K·Φ(d2)` as one integral. -/
theorem call_core_eq (F K s : ℝ) :
    F * normCdf (Real.log (F / K) / s + s / 2) - K * normCdf (Real.log (F / K) / s - s / 2)
      = ∫ u in Set.Iic (Real.log (F / K) / s - s / 2),
          (F * normPdf (u + s) - K * normPdf u) := by
  have harg : Real.log (F / K) / s + s / 2 = Real.log (F / K) / s - s / 2 + s := by ring
  have h2 : normCdf (Real.log (F / K) / s - s / 2 + s)
      = ∫ u in Set.Iic (Real.log (F / K) / s - s / 2), normPdf (u + s) :=
    (setIntegral_Iic_add_right normPdf _ s).symm
  rw [harg, h2]
  unfold normCdf
  rw [← integral_mul_left, ← integral_mul_left, ← integral_sub]
  · exact ((integrable_normPdf_add s).integrableOn.const_mul F)
  · exact (integrable_normPdf.integrableOn.const_mul K)

/-- Strict positivity of the Black-Scholes core `F·Φ(d1) - K·Φ(d2)` at
distances `d1 = log (F / K) / s + s / 2`, `d2 = d1 - s`. -/
theorem bs_core_pos (F K s : ℝ) (hF : 0 < F) (hK : 0 < K) (hs : 0 < s) :
    0 < F * normCdf (Real.log (F / K) / s + s / 2)
        - K * normCdf (Real.log (F / K) / s - s / 2) := by
  rw [call_core_eq]
  have hint : IntegrableOn (fun u => F * normPdf (u + s) - K * normPdf u)
      (Set.Iic (Real.log (F / K) / s - s / 2)) volume :=
    (((integrable_normPdf_add s).const_mul F).sub (integrable_normPdf.const_mul K)).integrableOn
  have hnn : ∀ᵐ u ∂(volume : Measure ℝ).restrict (Set.Iic (Real.log (F / K) / s - s / 2)),
      0 ≤ F * normPdf (u + s) - K * normPdf u := by
    refine (ae_restrict_iff' measurableSet_Iic).mpr (Filter.Eventually.of_forall fun u hu => ?_)
    have h := normPdf_shift_ge F K s u hF hK hs (Set.mem_Iic.mp hu)
    linarith
  refine (setIntegral_pos_iff_support_of_nonneg_ae hnn hint).mpr ?_
  have hsub : Set.Iio (Real.log (F / K) / s - s / 2)
      ⊆ Function.support (fun u => F * normPdf (u + s) - K * normPdf u)
        ∩ Set.Iic (Real.log (F / K) / s - s / 2) := by
    intro u hu
    have hlt := normPdf_shift_gt F K s u hF hK hs (Set.mem_Iio.mp hu)
    exact ⟨(sub_pos.mpr hlt).ne', Set.mem_Iic.mpr (Set.mem_Iio.mp hu).le⟩
  have h1 : (volume : Measure ℝ) (Set.Iio (Real.log (F / K) / s - s / 2))
      ≤ volume (Function.support (fun u => F * normPdf (u + s) - K * normPdf u)
        ∩ Set.Iic (Real.log (F / K) / s - s / 2)) := measure_mono hsub
  rw [Real.volume_Iio] at h1
  exact lt_of_lt_of_le ENNReal.zero_lt_top h1

/-! ### Parity algebra -/

/-- Exact put-call parity of the Forward variant, over the reals. -/
theorem forward_parityR (o : VanillaOption) (T : ℝ) :
    ForwardPrice.callR o T - ForwardPrice.putR o T
      = o.spot_price - o.strike_price * Real.exp (-o.risk_free_cont * T) := by
  have h1 := normCdf_add_normCdf_neg (ForwardPrice.d1R o T)
  have h2 := normCdf_add_normCdf_neg (ForwardPrice.d2R o T)
  have hE : Real.exp (o.risk_free_cont * T) * Real.exp (-o.risk_free_cont * T) = 1 := by
    rw [← Real.exp_add]
    norm_num
  unfold ForwardPrice.callR ForwardPrice.putR ForwardPrice.priceR
  linear_combination
    (o.spot_price * Real.exp (o.risk_free_cont * T) * Real.exp (-o.risk_free_cont * T)) * h1
      - (o.strike_price * Real.exp (-o.risk_free_cont * T)) * h2 + o.spot_price * hE

/-- Shared evaluation of `time_to_expiry` for the literal test dates
`23.11.2022` and `10.05.2023` (168 calendar days apart). -/
theorem scenario_T (o : VanillaOption) (h : o.days_to_expiry = some 168) :
    o.time_to_expiry = Except.ok ((168 : ℝ) / 365) := by
  unfold VanillaOption.time_to_expiry
  rw [h]
  show Except.ok (((168 : ℤ) : ℝ) / 365) = Except.ok ((168 : ℝ) / 365)
  norm_num

theorem itm_T : itmOption.time_to_expiry = Except.ok ((168 : ℝ) / 365) :=
  scenario_T _ (by decide)

theorem atm_T : atmOption.time_to_expiry = Except.ok ((168 : ℝ) / 365) :=
  scenario_T _ (by decide)

theorem nearAtm_T : nearAtmOption.time_to_expiry = Except.ok ((168 : ℝ) / 365) :=
  scenario_T _ (by decide)

theorem negRate_T : negRateOption.time_to_expiry = Except.ok ((168 : ℝ) / 365) :=
  scenario_T _ (by decide)

/-! ### Claims -/

/-- C1: for every Contract with positive spot, strike, volatility and
time-to-expiry, the Forward variant satisfies put-call parity:
`call - put = spot - strike·exp(-continuous_rate·time_to_expiry)`, exactly
over the reals and hence within the 1e-4 absolute tolerance. -/
theorem forward_put_call_parity (o : VanillaOption) (T : ℝ)
    (hT : o.time_to_expiry = Except.ok T) (hs : 0 < o.spot_price)
    (hk : 0 < o.strike_price) (hv : 0 < o.volatility) (ht : 0 < T) :
    ForwardPrice.call o = Except.ok (ForwardPrice.callR o T) ∧
    ForwardPrice.put o = Except.ok (ForwardPrice.putR o T) ∧
    ForwardPrice.callR o T - ForwardPrice.putR o T
      = o.spot_price - o.strike_price * Real.exp (-o.risk_free_cont * T) ∧
    |ForwardPrice.callR o T - ForwardPrice.putR o T
      - (o.spot_price - o.strike_price * Real.exp (-o.risk_free_cont * T))| ≤ 1e-4 := by
  have hp := forward_parityR o T
  refine ⟨?_, ?_, hp, ?_⟩
  · unfold ForwardPrice.call
    rw [hT]
    rfl
  · unfold ForwardPrice.put
    rw [hT]
    rfl
  · rw [hp, sub_self, abs_zero]
    norm_num

/-- Witness for C1 at the in-the-money test scenario. -/
theorem forward_put_call_parity_witness :
    itmOption.time_to_expiry = Except.ok ((168 : ℝ) / 365) ∧
    0 < itmOption.spot_price ∧ 0 < itmOption.strike_price ∧
    0 < itmOption.volatility ∧ 0 < ((168 : ℝ) / 365) ∧
    ForwardPrice.callR itmOption ((168 : ℝ) / 365) - ForwardPrice.putR itmOption ((168 : ℝ) / 365)
      = itmOption.spot_price
        - itmOption.strike_price * Real.exp (-itmOption.risk_free_cont * ((168 : ℝ) / 365)) :=
  ⟨itm_T, by norm_num [itmOption], by norm_num [itmOption], by norm_num [itmOption],
    by norm_num,
    (forward_put_call_parity itmOption ((168 : ℝ) / 365) itm_T (by norm_num [itmOption])
      (by norm_num [itmOption]) (by norm_num [itmOption]) (by norm_num)).2.2.1⟩

/-- C2: `put_from_parity` of the Forward variant coincides with `put`,
exactly over the reals and hence within the 1e-4 tolerance. -/
theorem forward_put_from_parity_consistent (o : VanillaOption) (T : ℝ)
    (hT : o.time_to_expiry = Except.ok T) (hs : 0 < o.spot_price)
    (hk : 0 < o.strike_price) (hv : 0 < o.volatility) (ht : 0 < T) :
    ForwardPrice.put_from_parity o = Except.ok (ForwardPrice.put_from_parityR o T) ∧
    ForwardPrice.put_from_parityR o T = ForwardPrice.putR o T ∧
    |ForwardPrice.put_from_parityR o T - ForwardPrice.putR o T| ≤ 1e-4 := by
  have hp := forward_parityR o T
  have heq : ForwardPrice.put_from_parityR o T = ForwardPrice.putR o T := by
    unfold ForwardPrice.put_from_parityR
    linarith
  refine ⟨?_, heq, ?_⟩
  · unfold ForwardPrice.put_from_parity
    rw [hT]
    rfl
  · rw [heq, sub_self, abs_zero]
    norm_num

/-- Witness for C2 at the out-of-the-money test scenario. -/
theorem forward_put_from_parity_consistent_witness :
    otmOption.time_to_expiry = Except.ok ((168 : ℝ) / 365) ∧
    0 < otmOption.spot_price ∧ 0 < otmOption.strike_price ∧
    0 < otmOption.volatility ∧ 0 < ((168 : ℝ) / 365) ∧
    ForwardPrice.put_from_parityR otmOption ((168 : ℝ) / 365)
      = ForwardPrice.putR otmOption ((168 : ℝ) / 365) :=
  ⟨scenario_T _ (by decide), by norm_num [otmOption], by norm_num [otmOption],
    by norm_num [otmOption], by norm_num,
    (forward_put_from_parity_consistent otmOption ((168 : ℝ) / 365) (scenario_T _ (by decide))
      (by norm_num [otmOption]) (by norm_num [otmOption]) (by norm_num [otmOption])
      (by norm_num)).2.1⟩

/-- C3: the Forward variant computes the no-dividend forward price
`spot·exp(continuous_rate·T)`, the distance `d1` with no rate term, `d2 =
d1 - volatility·√T`, and the discounted call and put formulas, with each
property evaluating `time_to_expiry` on access. -/
theorem forward_formulas (o : VanillaOption) (T : ℝ) :
    ForwardPrice.price o = o.time_to_expiry.map (ForwardPrice.priceR o) ∧
    ForwardPrice.priceR o T = o.spot_price * Real.exp (o.risk_free_cont * T) ∧
    ForwardPrice.d1R o T = (Real.log (ForwardPrice.priceR o T / o.strike_price)
        + T * o.volatility ^ 2 / 2) / (o.volatility * Real.sqrt T) ∧
    ForwardPrice.d2R o T = ForwardPrice.d1R o T - o.volatility * Real.sqrt T ∧
    ForwardPrice.callR o T = (normCdf (ForwardPrice.d1R o T) * ForwardPrice.priceR o T
        - normCdf (ForwardPrice.d2R o T) * o.strike_price)
        * Real.exp (-(o.risk_free_cont * T)) ∧
    ForwardPrice.putR o T = (normCdf (-ForwardPrice.d2R o T) * o.strike_price
        - normCdf (-ForwardPrice.d1R o T) * ForwardPrice.priceR o T)
        * Real.exp (-(o.risk_free_cont * T)) := by
  refine ⟨rfl, rfl, rfl, rfl, ?_, ?_⟩
  · unfold ForwardPrice.callR
    rw [neg_mul]
  · unfold ForwardPrice.putR
    rw [neg_mul]

/-- C4: the Spot variant computes `price = spot`, the distance `d1` with the
rate inside the numerator, `d2 = d1 - volatility·√T`, and the call with the
discounted strike term. -/
theorem spot_formulas (o : VanillaOption) (T : ℝ) :
    SpotPrice.price o = o.spot_price ∧
    SpotPrice.d1R o T = (Real.log (SpotPrice.price o / o.strike_price)
        + T * (o.risk_free_cont + o.volatility ^ 2 / 2)) / (o.volatility * Real.sqrt T) ∧
    SpotPrice.d2R o T = SpotPrice.d1R o T - o.volatility * Real.sqrt T ∧
    SpotPrice.callR o T = normCdf (SpotPrice.d1R o T) * SpotPrice.price o
        - normCdf (SpotPrice.d2R o T) * o.strike_price * Real.exp (-(o.risk_free_cont * T)) := by
  refine ⟨rfl, rfl, rfl, ?_⟩
  unfold SpotPrice.callR
  rw [neg_mul]

/-- The Forward `d1` in the normal form `log (F / K) / s + s / 2` with
`s = volatility·√T`. -/
theorem forward_d1_eq (o : VanillaOption) (T : ℝ) (hv : 0 < o.volatility) (ht : 0 < T) :
    ForwardPrice.d1R o T
      = Real.log (ForwardPrice.priceR o T / o.strike_price) / (o.volatility * Real.sqrt T)
        + (o.volatility * Real.sqrt T) / 2 := by
  have hsq : Real.sqrt T * Real.sqrt T = T := Real.mul_self_sqrt ht.le
  have hst : 0 < Real.sqrt T := Real.sqrt_pos.mpr ht
  have key : T * o.volatility ^ 2 / 2 / (o.volatility * Real.sqrt T)
      = o.volatility * Real.sqrt T / 2 := by
    rw [div_div, div_eq_div_iff (by positivity) (by positivity)]
    linear_combination (-2 * o.volatility ^ 2) * hsq
  unfold ForwardPrice.d1R
  rw [add_div, key]

/-- The Forward `d2` in the normal form `log (F / K) / s - s / 2`. -/
theorem forward_d2_eq (o : VanillaOption) (T : ℝ) (hv : 0 < o.volatility) (ht : 0 < T) :
    ForwardPrice.d2R o T
      = Real.log (ForwardPrice.priceR o T / o.strike_price) / (o.volatility * Real.sqrt T)
        - (o.volatility * Real.sqrt T) / 2 := by
  unfold ForwardPrice.d2R
  rw [forward_d1_eq o T hv ht]
  ring

/-- C5: for every Contract with positive spot, strike, volatility and
time-to-expiry, the Forward call and put values are strictly positive. -/
theorem forward_prices_positive (o : VanillaOption) (T : ℝ)
    (hT : o.time_to_expiry = Except.ok T) (hs : 0 < o.spot_price)
    (hk : 0 < o.strike_price) (hv : 0 < o.volatility) (ht : 0 < T) :
    ForwardPrice.call o = Except.ok (ForwardPrice.callR o T) ∧ 0 < ForwardPrice.callR o T ∧
    ForwardPrice.put o = Except.ok (ForwardPrice.putR o T) ∧ 0 < ForwardPrice.putR o T := by
  have hst : 0 < Real.sqrt T := Real.sqrt_pos.mpr ht
  have hss : 0 < o.volatility * Real.sqrt T := mul_pos hv hst
  have hF : 0 < ForwardPrice.priceR o T := mul_pos hs (Real.exp_pos _)
  have hd1 := forward_d1_eq o T hv ht
  have hd2 := forward_d2_eq o T hv ht
  have hcall := bs_core_pos (ForwardPrice.priceR o T) o.strike_price
    (o.volatility * Real.sqrt T) hF hk hss
  rw [← hd1, ← hd2] at hcall
  have hcallpos : 0 < ForwardPrice.callR o T := by
    unfold ForwardPrice.callR
    have h' : 0 < normCdf (ForwardPrice.d1R o T) * ForwardPrice.priceR o T
        - normCdf (ForwardPrice.d2R o T) * o.strike_price := by linarith
    exact mul_pos h' (Real.exp_pos _)
  have hput := bs_core_pos o.strike_price (ForwardPrice.priceR o T)
    (o.volatility * Real.sqrt T) hk hF hss
  have hlogswap : Real.log (o.strike_price / ForwardPrice.priceR o T)
      = -Real.log (ForwardPrice.priceR o T / o.strike_price) := by
    rw [← Real.log_inv, inv_div]
  have hnd2 : Real.log (o.strike_price / ForwardPrice.priceR o T) / (o.volatility * Real.sqrt T)
      + (o.volatility * Real.sqrt T) / 2 = -ForwardPrice.d2R o T := by
    rw [hlogswap, hd2]
    ring
  have hnd1 : Real.log (o.strike_price / ForwardPrice.priceR o T) / (o.volatility * Real.sqrt T)
      - (o.volatility * Real.sqrt T) / 2 = -ForwardPrice.d1R o T := by
    rw [hlogswap, hd1]
    ring
  rw [hnd2, hnd1] at hput
  have hputpos : 0 < ForwardPrice.putR o T := by
    unfold ForwardPrice.putR
    have h' : 0 < normCdf (-ForwardPrice.d2R o T) * o.strike_price
        - normCdf (-ForwardPrice.d1R o T) * ForwardPrice.priceR o T := by linarith
    exact mul_pos h' (Real.exp_pos _)
  refine ⟨?_, hcallpos, ?_, hputpos⟩
  · unfold ForwardPrice.call
    rw [hT]
    rfl
  · unfold ForwardPrice.put
    rw [hT]
    rfl

/-- Witness for C5 at the at-the-money test scenario. -/
theorem forward_prices_positive_witness :
    atmOption.time_to_expiry = Except.ok ((168 : ℝ) / 365) ∧
    0 < atmOption.spot_price ∧ 0 < atmOption.strike_price ∧
    0 < atmOption.volatility ∧ 0 < ((168 : ℝ) / 365) ∧
    0 < ForwardPrice.callR atmOption ((168 : ℝ) / 365) ∧
    0 < ForwardPrice.putR atmOption ((168 : ℝ) / 365) :=
  ⟨atm_T, by norm_num [atmOption], by norm_num [atmOption], by norm_num [atmOption],
    by norm_num,
    (forward_prices_positive atmOption ((168 : ℝ) / 365) atm_T (by norm_num [atmOption])
      (by norm_num [atmOption]) (by norm_num [atmOption]) (by norm_num)).2.1,
    (forward_prices_positive atmOption ((168 : ℝ) / 365) atm_T (by norm_num [atmOption])
      (by norm_num [atmOption]) (by norm_num [atmOption]) (by norm_num)).2.2.2⟩

/-- C7: on the Spot variant, `put` and `put_from_parity` yield the empty
result (Python `None`) for every contract — never a number, never an
error. -/
theorem spot_put_unsupported (o : VanillaOption) :
    SpotPrice.put o = Except.ok none ∧ SpotPrice.put_from_parity o = Except.ok none :=
  ⟨rfl, rfl⟩

/-- C8: whenever both date strings parse, `time_to_expiry` is the whole-day
difference divided by 365 and `risk_free_cont` is `log (1 + risk_free_int)`;
in this functional embedding both are by construction pure functions of the
contract fields, recomputed on each access with no mutation. -/
theorem contract_derived_quantities (o : VanillaOption)
    (dt mt yt de me ye : ℕ)
    (h1 : parseDMY o.trade_date = some (dt, mt, yt))
    (h2 : parseDMY o.expiry_date = some (de, me, ye)) :
    o.time_to_expiry
      = Except.ok ((((dayNumber ye me de : ℤ) - (dayNumber yt mt dt : ℤ) : ℤ) : ℝ) / 365) ∧
    o.risk_free_cont = Real.log (1 + o.risk_free_int) := by
  constructor
  · unfold VanillaOption.time_to_expiry VanillaOption.days_to_expiry
    rw [h1, h2]
  · rfl

/-- Witness for C8 at the literal test dates. -/
theorem contract_derived_quantities_witness :
    parseDMY itmOption.trade_date = some (23, 11, 2022) ∧
    parseDMY itmOption.expiry_date = some (10, 5, 2023) ∧
    itmOption.time_to_expiry
      = Except.ok ((((dayNumber 2023 5 10 : ℤ) - (dayNumber 2022 11 23 : ℤ) : ℤ) : ℝ) / 365) :=
  ⟨by decide, by decide,
    (contract_derived_quantities itmOption 23 11 2022 10 5 2023 (by decide) (by decide)).1⟩

/-- C9: on positive inputs the two variants agree on their shared outputs:
`d1`, `d2` and `call` coincide, both for the underlying real-valued maps and
for the property accessors. -/
theorem variants_agree (o : VanillaOption) (T : ℝ)
    (hT : o.time_to_expiry = Except.ok T) (hs : 0 < o.spot_price)
    (hk : 0 < o.strike_price) (hv : 0 < o.volatility) (ht : 0 < T) :
    SpotPrice.d1R o T = ForwardPrice.d1R o T ∧
    SpotPrice.d2R o T = ForwardPrice.d2R o T ∧
    SpotPrice.callR o T = ForwardPrice.callR o T ∧
    SpotPrice.d1 o = ForwardPrice.d1 o ∧
    SpotPrice.d2 o = ForwardPrice.d2 o ∧
    SpotPrice.call o = ForwardPrice.call o := by
  have hlog : Real.log (o.spot_price * Real.exp (o.risk_free_cont * T) / o.strike_price)
      = Real.log (o.spot_price / o.strike_price) + o.risk_free_cont * T := by
    rw [mul_div_right_comm,
      Real.log_mul (div_ne_zero hs.ne' hk.ne') (Real.exp_ne_zero _), Real.log_exp]
  have hd1 : SpotPrice.d1R o T = ForwardPrice.d1R o T := by
    unfold SpotPrice.d1R ForwardPrice.d1R SpotPrice.price ForwardPrice.priceR
    rw [hlog]
    ring
  have hd2 : SpotPrice.d2R o T = ForwardPrice.d2R o T := by
    unfold SpotPrice.d2R ForwardPrice.d2R
    rw [hd1]
  have hE : Real.exp (o.risk_free_cont * T) * Real.exp (-o.risk_free_cont * T) = 1 := by
    rw [← Real.exp_add]
    norm_num
  have hcall : SpotPrice.callR o T = ForwardPrice.callR o T := by
    unfold SpotPrice.callR ForwardPrice.callR SpotPrice.price ForwardPrice.priceR
    rw [hd1, hd2]
    linear_combination (-(normCdf (ForwardPrice.d1R o T) * o.spot_price)) * hE
  refine ⟨hd1, hd2, hcall, ?_, ?_, ?_⟩
  · unfold SpotPrice.d1 ForwardPrice.d1
    rw [hT]
    show Except.ok (SpotPrice.d1R o T) = Except.ok (ForwardPrice.d1R o T)
    rw [hd1]
  · unfold SpotPrice.d2 ForwardPrice.d2
    rw [hT]
    show Except.ok (SpotPrice.d2R o T) = Except.ok (ForwardPrice.d2R o T)
    rw [hd2]
  · unfold SpotPrice.call ForwardPrice.call
    rw [hT]
    show Except.ok (SpotPrice.callR o T) = Except.ok (ForwardPrice.callR o T)
    rw [hcall]

/-- Witness for C9 at the out-of-the-money test scenario. -/
theorem variants_agree_witness :
    otmOption.time_to_expiry = Except.ok ((168 : ℝ) / 365) ∧
    0 < otmOption.spot_price ∧ 0 < otmOption.strike_price ∧
    0 < otmOption.volatility ∧ 0 < ((168 : ℝ) / 365) ∧
    SpotPrice.call otmOption = ForwardPrice.call otmOption :=
  ⟨scenario_T _ (by decide), by norm_num [otmOption], by norm_num [otmOption],
    by norm_num [otmOption], by norm_num,
    (variants_agree otmOption ((168 : ℝ) / 365) (scenario_T _ (by decide))
      (by norm_num [otmOption]) (by norm_num [otmOption]) (by norm_num [otmOption])
      (by norm_num)).2.2.2.2.2⟩

/-- The in-the-money scenario with a nonzero dividend yield. -/
noncomputable def itmOptionDiv : VanillaOption :=
  ⟨"23.11.2022", "10.05.2023", 110, 100, 0.005, 0.04, 0.3⟩

/-- C10: two contracts that differ only in the `dividends` field are
indistinguishable through every derived quantity and every output of both
variants — the field is stored but never read. -/
theorem dividends_noninterference (o₁ o₂ : VanillaOption)
    (h1 : o₁.trade_date = o₂.trade_date) (h2 : o₁.expiry_date = o₂.expiry_date)
    (h3 : o₁.spot_price = o₂.spot_price) (h4 : o₁.strike_price = o₂.strike_price)
    (h5 : o₁.risk_free_int = o₂.risk_free_int) (h6 : o₁.volatility = o₂.volatility) :
    o₁.time_to_expiry = o₂.time_to_expiry ∧
    o₁.risk_free_cont = o₂.risk_free_cont ∧
    SpotPrice.price o₁ = SpotPrice.price o₂ ∧
    SpotPrice.d1 o₁ = SpotPrice.d1 o₂ ∧
    SpotPrice.d2 o₁ = SpotPrice.d2 o₂ ∧
    SpotPrice.call o₁ = SpotPrice.call o₂ ∧
    SpotPrice.put o₁ = SpotPrice.put o₂ ∧
    SpotPrice.put_from_parity o₁ = SpotPrice.put_from_parity o₂ ∧
    ForwardPrice.price o₁ = ForwardPrice.price o₂ ∧
    ForwardPrice.d1 o₁ = ForwardPrice.d1 o₂ ∧
    ForwardPrice.d2 o₁ = ForwardPrice.d2 o₂ ∧
    ForwardPrice.call o₁ = ForwardPrice.call o₂ ∧
    ForwardPrice.put o₁ = ForwardPrice.put o₂ ∧
    ForwardPrice.put_from_parity o₁ = ForwardPrice.put_from_parity o₂ := by
  have h : o₂ = { o₁ with dividends := o₂.dividends } := by
    obtain ⟨t1, e1, s1, k1, r1, dv1, v1⟩ := o₁
    obtain ⟨t2, e2, s2, k2, r2, dv2, v2⟩ := o₂
    simp only [VanillaOption.mk.injEq]
    exact ⟨h1.symm, h2.symm, h3.symm, h4.symm, h5.symm, trivial, h6.symm⟩
  rw [h]
  exact ⟨rfl, rfl, rfl, rfl, rfl, rfl, rfl, rfl, rfl, rfl, rfl, rfl, rfl, rfl⟩

/-- Witness for C10: the ITM scenario with dividend yields 0.0 and 0.04. -/
theorem dividends_noninterference_witness :
    itmOption.trade_date = itmOptionDiv.trade_date ∧
    itmOption.expiry_date = itmOptionDiv.expiry_date ∧
    itmOption.spot_price = itmOptionDiv.spot_price ∧
    itmOption.strike_price = itmOptionDiv.strike_price ∧
    itmOption.risk_free_int = itmOptionDiv.risk_free_int ∧
    itmOption.volatility = itmOptionDiv.volatility ∧
    ForwardPrice.call itmOption = ForwardPrice.call itmOptionDiv ∧
    SpotPrice.call itmOption = SpotPrice.call itmOptionDiv :=
  ⟨rfl, rfl, rfl, rfl, rfl, rfl,
    (dividends_noninterference itmOption itmOptionDiv rfl rfl rfl rfl rfl
      rfl).2.2.2.2.2.2.2.2.2.2.2.1,
    (dividends_noninterference itmOption itmOptionDiv rfl rfl rfl rfl rfl
      rfl).2.2.2.2.2.1⟩

/-! ### Elementary exp/log bounds for the concrete scenarios -/

theorem log_ge_one_sub_inv (x : ℝ) (hx : 0 < x) : 1 - x⁻¹ ≤ Real.log x := by
  have h := Real.log_le_sub_one_of_pos (inv_pos.mpr hx)
  rw [Real.log_inv] at h
  linarith

theorem exp_neg_le_inv_one_add (c : ℝ) (hc : 0 < c) : Real.exp (-c) ≤ (1 + c)⁻¹ := by
  have h := Real.add_one_le_exp c
  rw [Real.exp_neg]
  exact inv_anti₀ (by linarith) (by linarith)

/-- Lower bound for the discount exponent of the test scenarios:
`log 1.005 · (168/365) ≥ 168/73365`. -/
theorem c0_lb : (168 : ℝ) / 73365 ≤ Real.log 1.005 * (168 / 365) := by
  have h1 : (1 : ℝ) - (1.005)⁻¹ ≤ Real.log 1.005 := log_ge_one_sub_inv _ (by norm_num)
  have h3 : (1 : ℝ) / 201 ≤ Real.log 1.005 := by
    rw [show (1 : ℝ) / 201 = 1 - (1.005)⁻¹ by norm_num]
    exact h1
  calc (168 : ℝ) / 73365 = (1 / 201) * (168 / 365) := by norm_num
    _ ≤ Real.log 1.005 * (168 / 365) := mul_le_mul_of_nonneg_right h3 (by norm_num)

theorem c0_pos : 0 < Real.log 1.005 * ((168 : ℝ) / 365) :=
  lt_of_lt_of_le (by norm_num) c0_lb

/-- Upper bound for the discount factor of the test scenarios. -/
theorem exp_neg_c0_le : Real.exp (-(Real.log 1.005 * ((168 : ℝ) / 365))) ≤ (73365 : ℝ) / 73533 := by
  have h1 := exp_neg_le_inv_one_add _ c0_pos
  have h2 : (1 + Real.log 1.005 * ((168 : ℝ) / 365))⁻¹ ≤ (73365 : ℝ) / 73533 := by
    rw [show (73365 : ℝ) / 73533 = ((73533 : ℝ) / 73365)⁻¹ by norm_num]
    refine inv_anti₀ (by norm_num) ?_
    have := c0_lb
    rw [show (73533 : ℝ) / 73365 = 1 + 168 / 73365 by norm_num]
    linarith
  exact h1.trans h2

/-- C6 corrected: the Forward variant orders `call` against `put` by
comparing the spot with the *discounted* strike
`strike·exp(-continuous_rate·time_to_expiry)`, with exact equality (not a
1e-4 band) at the discounted-strike boundary. -/
theorem forward_moneyness_ordering (o : VanillaOption) (T : ℝ)
    (hT : o.time_to_expiry = Except.ok T) (hs : 0 < o.spot_price)
    (hk : 0 < o.strike_price) (hv : 0 < o.volatility) (ht : 0 < T) :
    (o.strike_price * Real.exp (-o.risk_free_cont * T) < o.spot_price →
      ForwardPrice.putR o T < ForwardPrice.callR o T) ∧
    (o.spot_price < o.strike_price * Real.exp (-o.risk_free_cont * T) →
      ForwardPrice.callR o T < ForwardPrice.putR o T) ∧
    (o.spot_price = o.strike_price * Real.exp (-o.risk_free_cont * T) →
      ForwardPrice.callR o T = ForwardPrice.putR o T) := by
  have hp := forward_parityR o T
  exact ⟨fun h => by linarith, fun h => by linarith, fun h => by linarith⟩

/-- Witness for the amended C6 at the in-the-money test scenario. -/
theorem forward_moneyness_ordering_witness :
    itmOption.time_to_expiry = Except.ok ((168 : ℝ) / 365) ∧
    0 < itmOption.spot_price ∧ 0 < itmOption.strike_price ∧
    0 < itmOption.volatility ∧ 0 < ((168 : ℝ) / 365) ∧
    itmOption.strike_price * Real.exp (-itmOption.risk_free_cont * ((168 : ℝ) / 365))
      < itmOption.spot_price ∧
    ForwardPrice.putR itmOption ((168 : ℝ) / 365) < ForwardPrice.callR itmOption ((168 : ℝ) / 365) := by
  have hrate : itmOption.risk_free_cont = Real.log 1.005 := by
    norm_num [VanillaOption.risk_free_cont, itmOption]
  have hlt : itmOption.strike_price * Real.exp (-itmOption.risk_free_cont * ((168 : ℝ) / 365))
      < itmOption.spot_price := by
    have harg : -itmOption.risk_free_cont * ((168 : ℝ) / 365)
        = -(Real.log 1.005 * ((168 : ℝ) / 365)) := by
      rw [hrate]
      ring
    rw [harg]
    have h1 : Real.exp (-(Real.log 1.005 * ((168 : ℝ) / 365))) ≤ 1 := by
      rw [show (1 : ℝ) = Real.exp 0 from Real.exp_zero.symm]
      exact Real.exp_le_exp.mpr (by linarith [c0_pos])
    have hstrike : itmOption.strike_price = 100 := by norm_num [itmOption]
    have hspot : itmOption.spot_price = 110 := by norm_num [itmOption]
    rw [hstrike, hspot]
    nlinarith [h1, Real.exp_pos (-(Real.log 1.005 * ((168 : ℝ) / 365)))]
  exact ⟨itm_T, by norm_num [itmOption], by norm_num [itmOption], by norm_num [itmOption],
    by norm_num, hlt,
    (forward_moneyness_ordering itmOption ((168 : ℝ) / 365) itm_T (by norm_num [itmOption])
      (by norm_num [itmOption]) (by norm_num [itmOption]) (by norm_num)).1 hlt⟩

/-- Counterexample to C6 as stated.  All three clauses fail on the code:
with a negative rate (spot 101 > strike 100, rate −0.5) the put exceeds the
call; slightly below the strike at the test rate (spot 99.9 < strike 100,
rate 0.005) the call exceeds the put; and at the literal at-the-money test
scenario (spot = strike = 100) the gap `call - put ≈ 0.229` far exceeds the
1e-4 tolerance. -/
theorem forward_itm_otm_ordering_cex :
    (negRateOption.time_to_expiry = Except.ok ((168 : ℝ) / 365) ∧
      0 < negRateOption.spot_price ∧ 0 < negRateOption.strike_price ∧
      0 < negRateOption.volatility ∧ 0 < ((168 : ℝ) / 365) ∧
      negRateOption.strike_price < negRateOption.spot_price ∧
      ForwardPrice.callR negRateOption ((168 : ℝ) / 365)
        < ForwardPrice.putR negRateOption ((168 : ℝ) / 365)) ∧
    (nearAtmOption.time_to_expiry = Except.ok ((168 : ℝ) / 365) ∧
      0 < nearAtmOption.spot_price ∧ 0 < nearAtmOption.strike_price ∧
      0 < nearAtmOption.volatility ∧
      nearAtmOption.spot_price < nearAtmOption.strike_price ∧
      ForwardPrice.putR nearAtmOption ((168 : ℝ) / 365)
        < ForwardPrice.callR nearAtmOption ((168 : ℝ) / 365)) ∧
    (atmOption.time_to_expiry = Except.ok ((168 : ℝ) / 365) ∧
      0 < atmOption.spot_price ∧ 0 < atmOption.strike_price ∧
      0 < atmOption.volatility ∧
      atmOption.spot_price = atmOption.strike_price ∧
      1e-4 < |ForwardPrice.callR atmOption ((168 : ℝ) / 365)
        - ForwardPrice.putR atmOption ((168 : ℝ) / 365)|) := by
  refine ⟨⟨negRate_T, by norm_num [negRateOption], by norm_num [negRateOption],
      by norm_num [negRateOption], by norm_num, by norm_num [negRateOption], ?_⟩,
    ⟨nearAtm_T, by norm_num [nearAtmOption], by norm_num [nearAtmOption],
      by norm_num [nearAtmOption], by norm_num [nearAtmOption], ?_⟩,
    ⟨atm_T, by norm_num [atmOption], by norm_num [atmOption], by norm_num [atmOption],
      by norm_num [atmOption], ?_⟩⟩
  · -- negative rate: call - put = 101 - 100·exp(log 2·(168/365)) < 0
    have hp := forward_parityR negRateOption ((168 : ℝ) / 365)
    have hrate : negRateOption.risk_free_cont = -Real.log 2 := by
      rw [show negRateOption.risk_free_cont = Real.log (1 + negRateOption.risk_free_int) from rfl]
      rw [show (1 : ℝ) + negRateOption.risk_free_int = 2⁻¹ by norm_num [negRateOption]]
      exact Real.log_inv 2
    have harg : -negRateOption.risk_free_cont * ((168 : ℝ) / 365)
        = Real.log 2 * ((168 : ℝ) / 365) := by
      rw [hrate]
      ring
    rw [harg] at hp
    have hlog2 : (1 : ℝ) / 2 ≤ Real.log 2 := by
      have h := log_ge_one_sub_inv 2 (by norm_num)
      norm_num at h
      linarith
    have hargle : (84 : ℝ) / 365 ≤ Real.log 2 * ((168 : ℝ) / 365) := by
      calc (84 : ℝ) / 365 = (1 / 2) * (168 / 365) := by norm_num
        _ ≤ Real.log 2 * (168 / 365) := mul_le_mul_of_nonneg_right hlog2 (by norm_num)
    have hexp : (449 : ℝ) / 365 ≤ Real.exp (Real.log 2 * ((168 : ℝ) / 365)) := by
      have h2 : Real.exp ((84 : ℝ) / 365) ≤ Real.exp (Real.log 2 * ((168 : ℝ) / 365)) :=
        Real.exp_le_exp.mpr hargle
      have h3 := Real.add_one_le_exp ((84 : ℝ) / 365)
      have h4 : (449 : ℝ) / 365 = 84 / 365 + 1 := by norm_num
      linarith
    have hspot : negRateOption.spot_price = 101 := by norm_num [negRateOption]
    have hstrike : negRateOption.strike_price = 100 := by norm_num [negRateOption]
    rw [hspot, hstrike] at hp
    linarith
  · -- slightly OTM at positive rate: call - put = 99.9 - 100·exp(-c₀) > 0
    have hp := forward_parityR nearAtmOption ((168 : ℝ) / 365)
    have hrate : nearAtmOption.risk_free_cont = Real.log 1.005 := by
      norm_num [VanillaOption.risk_free_cont, nearAtmOption]
    have harg : -nearAtmOption.risk_free_cont * ((168 : ℝ) / 365)
        = -(Real.log 1.005 * ((168 : ℝ) / 365)) := by
      rw [hrate]
      ring
    rw [harg] at hp
    have hspot : nearAtmOption.spot_price = 99.9 := by norm_num [nearAtmOption]
    have hstrike : nearAtmOption.strike_price = 100 := by norm_num [nearAtmOption]
    rw [hspot, hstrike] at hp
    have hexp := exp_neg_c0_le
    nlinarith [hp, hexp]
  · -- at the money: call - put = 100·(1 - exp(-c₀)) > 1e-4
    have hp := forward_parityR atmOption ((168 : ℝ) / 365)
    have hrate : atmOption.risk_free_cont = Real.log 1.005 := by
      norm_num [VanillaOption.risk_free_cont, atmOption]
    have harg : -atmOption.risk_free_cont * ((168 : ℝ) / 365)
        = -(Real.log 1.005 * ((168 : ℝ) / 365)) := by
      rw [hrate]
      ring
    rw [harg] at hp
    have hspot : atmOption.spot_price = 100 := by norm_num [atmOption]
    have hstrike : atmOption.strike_price = 100 := by norm_num [atmOption]
    rw [hspot, hstrike] at hp
    have hexp := exp_neg_c0_le
    have h : 1e-4 < ForwardPrice.callR atmOption ((168 : ℝ) / 365)
        - ForwardPrice.putR atmOption ((168 : ℝ) / 365) := by nlinarith [hp, hexp]
    exact lt_of_lt_of_le h (le_abs_self _)

end ValueAtRisk
